import Mathlib

/-!
Shallow embedding of the RtpDrmPlayer decode-and-present pipeline.

Each definition is translated from one function of the C++ source:

* `DmaBufAllocator.*`   — `DmaBufAllocator::Impl` (dmabuf_allocator.cpp)
* `DmaBuffersManager.*` — `DmaBuffersManager` (dma_buffers_manager.cpp)
* `StreamingManager.*`  — `StreamingManager` (streaming_manager.cpp)
* `FrameProcessor`-side — `FrameProcessor` (frame_processor.cpp)
* `Drm*`                — `DrmDmaBufDisplayManager::Impl` (drm_dmabuf_display.cpp)
* pipeline functions    — `V4L2DecoderImpl` (v4l2_decoder.cpp)
* `onFrameReceivedEnqueue` — `RTPPlayer::onFrameReceived` (rtp_player.cpp)

Kernel and device interaction is modelled by explicit environments: each
fallible device call (ioctl, poll, queue/dequeue) reads its outcome from an
environment record, and the system calls a function issues (close, munmap,
DRM teardown calls) are returned as explicit event lists where a claim needs
them.  Machine integers are modelled as `Nat`/`Int`; the only overflow-relevant
constant, `UINT32_MAX`, appears explicitly where the source compares against
it.
-/

set_option maxRecDepth 16384

namespace RtpDrm

-- ===================================================================
-- DEFINITIONS
-- ===================================================================

/-- One kernel DMA buffer record (`DmaBufAllocator::DmaBufInfo`,
dmabuf_allocator.h).  The default member values are `fd = -1`,
`mapped_addr = nullptr`, `size = 0`, `handle = 0`; value-initialisation
(`= {}`) produces exactly those.  The CPU mapping is an optional abstract
address. -/
structure DmaBufInfo where
  fd : Int
  mapped_addr : Option Nat
  size : Nat
  handle : Nat
  deriving DecidableEq, Repr

/-- The value-initialised record `DmaBufAllocator::DmaBufInfo buf_info = {};`. -/
def DmaBufInfo.zeroInit : DmaBufInfo :=
  { fd := -1, mapped_addr := none, size := 0, handle := 0 }

/-- A system call issued by the allocator on behalf of a buffer record. -/
inductive SysEvent where
  | closeFd (fd : Int)
  | munmapCall (addr : Nat) (size : Nat)
  deriving DecidableEq, Repr

/-- `UINT32_MAX`, the bound the allocator compares a requested size against
(dmabuf_allocator.cpp: `size > UINT32_MAX`). -/
def UINT32_MAX : Nat := 4294967295

namespace DmaBufAllocator

/-- `DmaBufAllocator::Impl::deallocate` (dmabuf_allocator.cpp):
`if (buf_info.fd >= 0) close(buf_info.fd);`.  The parameter is a `const`
reference, so the record itself is returned unchanged; the emitted `close`
system calls are returned alongside. -/
def deallocate (b : DmaBufInfo) : DmaBufInfo × List SysEvent :=
  if 0 ≤ b.fd then (b, [SysEvent.closeFd b.fd]) else (b, [])

/-- `DmaBufAllocator::Impl::unmap` (dmabuf_allocator.cpp):
`if (mapped_addr != nullptr) { munmap(mapped_addr, size); mapped_addr = nullptr; }`. -/
def unmap (b : DmaBufInfo) : DmaBufInfo × List SysEvent :=
  match b.mapped_addr with
  | some a => ({ b with mapped_addr := none }, [SysEvent.munmapCall a b.size])
  | none => (b, [])

/-- Apply a record operation twice in sequence, concatenating the system
calls the two applications issue. -/
def twice (f : DmaBufInfo → DmaBufInfo × List SysEvent) (b : DmaBufInfo) :
    DmaBufInfo × List SysEvent :=
  let r1 := f b
  let r2 := f r1.1
  (r2.1, r1.2 ++ r2.2)

/-- Environment of one `DmaBufAllocator::Impl::allocate` call: the result of
the `DMA_HEAP_IOCTL_ALLOC` ioctl (`none` = failure, `some fd` = minted
descriptor) and of `fstat` on the minted descriptor (`none` = `fstat`
failed, keep the requested size). -/
structure AllocEnv where
  ioctl_fd : Option Nat
  fstat_size : Option Nat
  deriving DecidableEq, Repr

/-- `DmaBufAllocator::Impl::allocate` (dmabuf_allocator.cpp).  Returns the
produced record and whether the kernel heap allocation request
(`DMA_HEAP_IOCTL_ALLOC`) was issued.  The size guard in the source is
`if (size == 0 || size > UINT32_MAX) return buf_info;` with `buf_info`
value-initialised; the name-setting ioctl is best-effort and does not
affect the result. -/
def allocate (supported : Bool) (size : Nat) (env : AllocEnv) :
    DmaBufInfo × Bool :=
  if supported = false then (DmaBufInfo.zeroInit, false)
  else if size = 0 ∨ UINT32_MAX < size then (DmaBufInfo.zeroInit, false)
  else
    match env.ioctl_fd with
    | none => (DmaBufInfo.zeroInit, true)
    | some fd =>
      let actual := match env.fstat_size with
        | some s => s
        | none => size
      ({ fd := (fd : Int), mapped_addr := none, size := actual, handle := 0 }, true)

end DmaBufAllocator

/-- State of one `DmaBuffersManager` (dma_buffers_manager.cpp): a fixed slot
count, the buffer records, the `in_use_` vector and the rolling cursor
`current_buffer_`. -/
structure PoolState where
  count : Nat
  buffers : List DmaBufInfo
  in_use : List Bool
  current_buffer : Nat
  deriving DecidableEq, Repr

namespace DmaBuffersManager

/-- Loop body of `DmaBuffersManager::get_free_buffer_index`
(dma_buffers_manager.cpp): for `i` from 0 while `i < count_`, compute
`idx = (current_buffer_ + i) % count_` and return `idx` as soon as
`!in_use_[idx]`; return -1 when the loop runs out.  `r` is the number of
remaining iterations (`count - i`). -/
def get_free_loop (in_use : List Bool) (count current : Nat) : Nat → Nat → Int
  | _, 0 => -1
  | i, r + 1 =>
    if in_use.getD ((current + i) % count) false = false then
      (((current + i) % count : Nat) : Int)
    else get_free_loop in_use count current (i + 1) r

/-- `DmaBuffersManager::get_free_buffer_index`.  The C++ method is
non-const but only reads; the embedding returns the (unchanged) pool state
alongside the result to make that explicit. -/
def get_free_buffer_index (s : PoolState) : Int × PoolState :=
  (get_free_loop s.in_use s.count s.current_buffer 0 s.count, s)

/-- `DmaBuffersManager::mark_in_use`: out-of-range indices are silent
no-ops; the cursor advances to `(index + 1) % count_` exactly when the
marked index equals `current_buffer_ % count_`. -/
def mark_in_use (s : PoolState) (index : Nat) : PoolState :=
  if index < s.count then
    let s1 := { s with in_use := s.in_use.set index true }
    if index = s.current_buffer % s.count then
      { s1 with current_buffer := (index + 1) % s.count }
    else s1
  else s

/-- `DmaBuffersManager::mark_free`: out-of-range indices are silent no-ops. -/
def mark_free (s : PoolState) (index : Nat) : PoolState :=
  if index < s.count then { s with in_use := s.in_use.set index false } else s

/-- `DmaBuffersManager::reset_usage`. -/
def reset_usage (s : PoolState) : PoolState :=
  { s with in_use := List.replicate s.count false, current_buffer := 0 }

/-- `DmaBuffersManager::deallocate`: per slot, `unmap` then close the
descriptor (via the allocator), then clear both vectors; `current_buffer_`
is untouched. -/
def deallocate (s : PoolState) : PoolState :=
  { s with buffers := [], in_use := [] }

/-- `DmaBuffersManager::allocate` (dma_buffers_manager.cpp): deallocate the
old slots, resize to `count_`, clear `in_use_`, reset the cursor, then mint
and map one buffer per slot from the allocator.  The allocator responses
are the environment: `fds` lists the descriptor minted for each slot
(negative = allocation failure) and `map_ok` whether every `map` succeeds.
On any failure the partly filled pool is deallocated again and the call
fails. -/
def allocate (s : PoolState) (buffer_size : Nat) (fds : List Int)
    (map_ok : Bool) : Bool × PoolState :=
  let cleared : PoolState :=
    { deallocate s with in_use := List.replicate s.count false, current_buffer := 0 }
  if (((List.range s.count).all fun i => decide (0 ≤ fds.getD i (-1))) && map_ok) = true then
    (true, { cleared with buffers := (List.range s.count).map fun i =>
      { fd := fds.getD i (-1), mapped_addr := some (i + 1),
        size := buffer_size, handle := 0 } })
  else (false, { cleared with in_use := [] })

end DmaBuffersManager

/-- Loop of the content-liveness scan in `FrameProcessor::displayFrame`
(frame_processor.cpp):

```
for (size_t i = 0; i < std::min<size_t>(1024, bytesused); i += 64)
    if (buffer[i] != 16 || buffer[i+1] != 16) { has_content = true; break; }
```

The buffer is a byte list; out-of-range reads default to 0 (the mapping is
at least `bytesused` bytes, so the defaults are never consulted for the
positions the loop visits).  `fuel` bounds the iteration count; 17 steps
cover every bound ≤ 1024 (positions 0, 64, …, 960). -/
def has_content_loop (buf : List Nat) (bound : Nat) : Nat → Nat → Bool
  | _, 0 => false
  | i, fuel + 1 =>
    if i < bound then
      if buf.getD i 0 ≠ 16 ∨ buf.getD (i + 1) 0 ≠ 16 then true
      else has_content_loop buf bound (i + 64) fuel
    else false

/-- The content-liveness scan of `FrameProcessor::displayFrame`: `true`
means the buffer is accepted as holding decoded content, `false` means it
is rejected as still carrying only pre-painted initialisation data. -/
def has_content (buf : List Nat) (bytesused : Nat) : Bool :=
  has_content_loop buf (min 1024 bytesused) 0 17

/-- Modelled from the spec's words, for comparison with `has_content`
(refinement check): the heuristic is claimed to reject exactly when "every
sampled byte at the stride-64 positions within the first 1 KiB equals the
pre-paint sentinel (16 for luma samples, 128 for chroma samples)".  The
stride-64 positions within the first 1 KiB are `{64·k | k < 16}`, and for
every negotiated frame (`w·h ≥ 1024`) they all lie in the luma plane,
whose sentinel is 16. -/
def spec_all_sentinel (buf : List Nat) : Prop :=
  ∀ k < 16, buf.getD (64 * k) 0 = 16

instance (buf : List Nat) : Decidable (spec_all_sentinel buf) := by
  unfold spec_all_sentinel; infer_instance

/-- `StreamingManager::State` (streaming_manager.h). -/
inductive StreamState where
  | stopped
  | starting
  | active
  | stopping
  | error
  deriving DecidableEq, Repr

/-- Device responses consumed by one `StreamingManager::start` call:
whether queueing all output buffers succeeds and whether the two
`VIDIOC_STREAMON` calls succeed. -/
structure StreamEnv where
  queue_output_ok : Bool
  stream_on_input_ok : Bool
  stream_on_output_ok : Bool
  deriving DecidableEq, Repr

namespace StreamingManager

/-- `StreamingManager::start` (streaming_manager.cpp): idempotent success
when already `ACTIVE`; otherwise queue all output buffers, stream-on input
then output (`enableStreaming`, which rolls back input streaming when the
output stream-on fails); any failure leaves the state machine in `ERROR`. -/
def start (st : StreamState) (env : StreamEnv) : Bool × StreamState :=
  if st = .active then (true, st)
  else if env.queue_output_ok = false then (false, .error)
  else if env.stream_on_input_ok = false then (false, .error)
  else if env.stream_on_output_ok = false then (false, .error)
  else (true, .active)

/-- `StreamingManager::stop`: best-effort stream-off of both queues, always
reports success and ends in `STOPPED`. -/
def stop (st : StreamState) : Bool × StreamState :=
  if st = .stopped then (true, st) else (true, .stopped)

end StreamingManager

/-- Outcome of one `DrmDmaBufDisplayManager::Impl::setupZeroCopyBuffer`
call, one constructor per return path of the source (drm_dmabuf_display.cpp). -/
inductive SetupResult where
  | invalid_fd
  | invalid_size
  | already_set_up
  | import_failed
  | overflow_rejected
  | add_fb_failed
  | ok
  deriving DecidableEq, Repr

/-- The boolean the source returns for each `SetupResult`. -/
def SetupResult.toBool : SetupResult → Bool
  | .already_set_up => true
  | .ok => true
  | _ => false

/-- DRM driver responses consumed while presenting one frame:
`drmPrimeFDToHandle` (`none` = failure), `drmModeAddFB2`, `drmModeSetCrtc`. -/
structure PresentEnv where
  prime_handle : Option Nat
  add_fb_ok : Bool
  set_crtc_ok : Bool
  deriving DecidableEq, Repr

/-- `DrmDmaBufDisplayManager::Impl::setupZeroCopyBuffer`
(drm_dmabuf_display.cpp).  The framebuffer cache is modelled by the list of
`dma_fd` keys of `zero_copy_buffers`.  Guards, in source order: negative
`fd`; width/height zero or above 8192; already-cached `fd`; PRIME import;
the 32-bit overflow check `y_size_64 > UINT32_MAX` on `w·h`; framebuffer
creation.  On success the `fd` is appended to the cache. -/
def setupZeroCopyBuffer (cache : List Int) (env : PresentEnv) (dma_fd : Int)
    (w h : Nat) : SetupResult × List Int :=
  if dma_fd < 0 then (.invalid_fd, cache)
  else if w = 0 ∨ h = 0 ∨ 8192 < w ∨ 8192 < h then (.invalid_size, cache)
  else if dma_fd ∈ cache then (.already_set_up, cache)
  else
    match env.prime_handle with
    | none => (.import_failed, cache)
    | some _ =>
      if UINT32_MAX < w * h then (.overflow_rejected, cache)
      else if env.add_fb_ok then (.ok, cache ++ [dma_fd])
      else (.add_fb_failed, cache)

/-- `DrmDmaBufDisplayManager::Impl::displayZeroCopyFrame` wrapped by
`DrmDmaBufDisplayManager::displayFrame` (drm_dmabuf_display.cpp): the
frame descriptor built by the presenter always has `is_dmabuf = true`, so
the call succeeds iff the `fd` is non-negative, cached, and the mode-set
succeeds. -/
def displayFrameDrm (cache : List Int) (env : PresentEnv) (dma_fd : Int) : Bool :=
  if dma_fd < 0 then false
  else if dma_fd ∈ cache then env.set_crtc_ok
  else false

/-- One cached framebuffer entry of the display controller
(`DrmDmaBufDisplayManager::Impl::ZeroCopyBuffer`). -/
structure ZeroCopyBuffer where
  dma_fd : Int
  fb_id : Nat
  handle : Nat
  deriving DecidableEq, Repr

/-- Resource-holding state of `DrmDmaBufDisplayManager::Impl`: the display
device descriptor, the embedded allocator's heap descriptor, the cached
framebuffers, and which of the mode/encoder/connector/resource handles are
held.  (`mode` points into `connector`, so freeing the connector releases
it; the held handles are the four freed in `cleanup`.) -/
structure DrmState where
  drm_fd : Int
  heap_fd : Int
  zero_copy_buffers : List ZeroCopyBuffer
  crtc : Bool
  encoder : Bool
  connector : Bool
  resources : Bool
  deriving DecidableEq, Repr

/-- A teardown action of the display controller. -/
inductive DrmEvent where
  | rm_fb (fb : Nat)
  | close_handle (h : Nat)
  | free_crtc
  | free_encoder
  | free_connector
  | free_resources
  | close_fd (fd : Int)
  deriving DecidableEq, Repr

/-- `DrmDmaBufDisplayManager::Impl::cleanup` (drm_dmabuf_display.cpp): for
every cached entry remove the framebuffer and close the imported handle;
then free CRTC, encoder, connector and resources in that order and close
the display descriptor last.  Errors are logged, never propagated. -/
def drmCleanup (st : DrmState) : DrmState × List DrmEvent :=
  let buf_events := (st.zero_copy_buffers.map fun b =>
      (if 0 < b.fb_id then [DrmEvent.rm_fb b.fb_id] else []) ++
      (if 0 < b.handle then [DrmEvent.close_handle b.handle] else [])).flatten
  let res_events :=
      (if st.crtc then [DrmEvent.free_crtc] else []) ++
      (if st.encoder then [DrmEvent.free_encoder] else []) ++
      (if st.connector then [DrmEvent.free_connector] else []) ++
      (if st.resources then [DrmEvent.free_resources] else []) ++
      (if 0 ≤ st.drm_fd then [DrmEvent.close_fd st.drm_fd] else [])
  ({ drm_fd := -1, heap_fd := st.heap_fd, zero_copy_buffers := [],
     crtc := false, encoder := false, connector := false, resources := false },
   buf_events ++ res_events)

/-- The teardown that actually runs when the display controller is
dropped: `~DrmDmaBufDisplayManager() = default` (drm_dmabuf_display.cpp)
never calls `cleanup()`, and `V4L2DecoderImpl::cleanup` (v4l2_decoder.cpp)
drops the controller with `display_manager.reset()`.  Destroying `Impl`
runs only the member destructors; the one that releases a descriptor is
`DmaBufAllocator::Impl::~Impl`, which closes the DMA-heap descriptor.  The
display descriptor, cached framebuffers and imported handles are not
released. -/
def drmDrop (st : DrmState) : List DrmEvent :=
  if 0 ≤ st.heap_fd then [DrmEvent.close_fd st.heap_fd] else []

/-- `V4L2DecoderImpl` state (v4l2_decoder.cpp) as visible to the claims:
the two pools, the zero-copy bookkeeping, the display controller's
framebuffer-cache keys, the streaming state machine and the pipeline
flags.  `config_width`/`config_height` and `default_input_buffer_size`
come from `DecoderConfig` (config.h). -/
structure PipelineState where
  device_open : Bool
  streaming : StreamState
  input_pool : PoolState
  output_pool : PoolState
  zero_copy_initialized : List Bool
  display_cache : List Int
  display_present : Bool
  display_type_drm : Bool
  frame_width : Nat
  frame_height : Nat
  config_width : Nat
  config_height : Nat
  default_input_buffer_size : Nat
  decoded_frame_count : Int
  decoder_ready : Bool
  needs_reset : Bool
  deriving DecidableEq, Repr

/-- The fields of a dequeued `v4l2_buffer` the presenter reads: slot
index, the driver error flag (`V4L2_BUF_FLAG_ERROR`) and
`planes[0].bytesused`. -/
structure V4l2OutBuf where
  index : Nat
  flags_error : Bool
  bytesused : Nat
  deriving DecidableEq, Repr

/-- `FrameProcessor::validateOutputBuffer` (frame_processor.cpp): index in
range, slot descriptor valid and CPU-mapped, no driver error flag. -/
def validateOutputBuffer (p : PoolState) (b : V4l2OutBuf) : Bool :=
  if p.count ≤ b.index then false
  else if (p.buffers.getD b.index DmaBufInfo.zeroInit).fd < 0 ∨
      (p.buffers.getD b.index DmaBufInfo.zeroInit).mapped_addr = none then false
  else if b.flags_error then false
  else true

/-- The zero-copy setup closure the pipeline hands to the presenter
(lambda in `V4L2DecoderImpl` construction, v4l2_decoder.cpp): skip when
the index is out of range of `zero_copy_initialized` or the slot is
already marked; otherwise (the `dynamic_cast` succeeds exactly when a
display controller is present) import the slot's `fd` and mark the slot
on success. -/
def zeroCopySetupCallback (s : PipelineState) (env : PresentEnv)
    (index : Nat) : PipelineState :=
  if s.zero_copy_initialized.length ≤ index ∨
      s.zero_copy_initialized.getD index false = true then s
  else if s.display_present then
    let fd := (s.output_pool.buffers.getD index DmaBufInfo.zeroInit).fd
    let r := setupZeroCopyBuffer s.display_cache env fd s.frame_width s.frame_height
    if r.1.toBool then
      { s with display_cache := r.2,
               zero_copy_initialized := s.zero_copy_initialized.set index true }
    else { s with display_cache := r.2 }
  else s

/-- `FrameProcessor::displayFrame` (frame_processor.cpp): size
plausibility check against `(w·h·3/2)/2`, the content-liveness scan, the
lazy zero-copy setup for DRM display, then the display call.  `content`
is the byte content of the slot's CPU mapping. -/
def displayFrame (s : PipelineState) (env : PresentEnv) (b : V4l2OutBuf)
    (content : List Nat) : Bool × PipelineState :=
  let min_expected := s.frame_width * s.frame_height * 3 / 2
  if b.bytesused < min_expected / 2 then (false, s)
  else if has_content content b.bytesused = false then (false, s)
  else
    let s1 := if s.display_type_drm then zeroCopySetupCallback s env b.index else s
    let fd := (s.output_pool.buffers.getD b.index DmaBufInfo.zeroInit).fd
    (displayFrameDrm s1.display_cache env fd, s1)

/-- `FrameProcessor::processDecodedFrame` (frame_processor.cpp): reject
invalid buffers (still returning `true` so the slot is re-queued);
otherwise increment the decoded-frame counter, then attempt display when a
display controller is present and the frame dimensions are non-zero; the
display result is only logged.  Always returns `true`. -/
def processDecodedFrame (s : PipelineState) (env : PresentEnv)
    (b : V4l2OutBuf) (content : List Nat) : Bool × PipelineState :=
  if validateOutputBuffer s.output_pool b = false then (true, s)
  else
    let s1 := { s with decoded_frame_count := s.decoded_frame_count + 1 }
    if s1.display_present = true ∧ 0 < s1.frame_width ∧ 0 < s1.frame_height then
      (true, (displayFrame s1 env b content).2)
    else (true, s1)

/-- `RTPPlayer` frame-queue state (rtp_player.cpp): the bounded queue
(front = oldest) and the receiver's `frames_dropped` statistic
(`UvgRTPReceiver::Statistics`, the only dropped-frames counter in the
program; it is incremented only in the exception handler of
`UvgRTPReceiver::processFrame`, never on queue overflow). -/
structure PlayerQueueState where
  frame_queue : List Nat
  frames_dropped : Nat
  deriving DecidableEq, Repr

/-- `RTPPlayer::MAX_QUEUE_SIZE` (rtp_player.cpp). -/
def MAX_QUEUE_SIZE : Nat := 5

/-- The lock-guarded enqueue step of `RTPPlayer::onFrameReceived`
(rtp_player.cpp): when the queue already holds `MAX_QUEUE_SIZE` frames,
pop the oldest, then push the new frame.  No statistic is touched. -/
def onFrameReceivedEnqueue (s : PlayerQueueState) (frame : Nat) :
    PlayerQueueState :=
  let q := if MAX_QUEUE_SIZE ≤ s.frame_queue.length then s.frame_queue.tail
           else s.frame_queue
  { s with frame_queue := q ++ [frame] }

/-- Device and allocator responses consumed by one
`V4L2DecoderImpl::setupDmaBufs` run: the two `VIDIOC_G_FMT` calls (their
success and the reported `sizeimage`, 0 meaning "driver reports none"),
the allocator responses for the two pools, and the two
`VIDIOC_REQBUFS` calls. -/
structure ResetEnv where
  formats_ok : Bool
  input_sizeimage : Nat
  output_sizeimage : Nat
  new_input_fds : List Int
  input_map_ok : Bool
  new_output_fds : List Int
  output_map_ok : Bool
  request_input_ok : Bool
  request_output_ok : Bool
  deriving DecidableEq, Repr

/-- `V4L2DecoderImpl::setupDmaBufs` (v4l2_decoder.cpp): first reassign
`zero_copy_initialized` to `output count` entries, all false; query both
formats; fall back to `default_input_buffer_size` resp.
`config.width · config.height · 3 / 2` when a driver reports `sizeimage`
0; allocate and realize the input pool, then the output pool (pre-painting
the output slots with the `{16, 128}` sentinel — a CPU write with no
bookkeeping effect); any failure aborts.  The display controller is never
touched. -/
def setupDmaBufs (s : PipelineState) (env : ResetEnv) : Bool × PipelineState :=
  let s0 := { s with
    zero_copy_initialized := List.replicate s.output_pool.count false }
  if env.formats_ok = false then (false, s0)
  else
    let input_size := if env.input_sizeimage = 0 then s0.default_input_buffer_size
                      else env.input_sizeimage
    let output_size := if env.output_sizeimage = 0 then
                         s0.config_width * s0.config_height * 3 / 2
                       else env.output_sizeimage
    match DmaBuffersManager.allocate s0.input_pool input_size
        env.new_input_fds env.input_map_ok with
    | (false, ip) => (false, { s0 with input_pool := ip })
    | (true, ip) =>
      let s1 := { s0 with input_pool := ip }
      if env.request_input_ok = false then (false, s1)
      else
        match DmaBuffersManager.allocate s1.output_pool output_size
            env.new_output_fds env.output_map_ok with
        | (false, op) => (false, { s1 with output_pool := op })
        | (true, op) =>
          let s2 := { s1 with output_pool := op }
          if env.request_output_ok = false then (false, s2)
          else (true, s2)

/-- `V4L2DecoderImpl::resetBuffers` (v4l2_decoder.cpp): fail when the
device is closed; stop streaming and force the controller to `STOPPED`
(`set_inactive`); release both pools on the device (`VIDIOC_REQBUFS` 0, a
device-side effect); sleep 50 ms; `reset_usage` on the input pool;
deallocate both pools (closing every descriptor and mapping); clear
`zero_copy_initialized`; sleep 200 ms; rebuild through `setupDmaBufs`. -/
def resetBuffers (s : PipelineState) (env : ResetEnv) : Bool × PipelineState :=
  if s.device_open = false then (false, s)
  else
    let s1 := { s with streaming := StreamState.stopped }
    let s2 := { s1 with input_pool := DmaBuffersManager.reset_usage s1.input_pool }
    let s3 := { s2 with input_pool := DmaBuffersManager.deallocate s2.input_pool,
                        output_pool := DmaBuffersManager.deallocate s2.output_pool }
    let s4 := { s3 with zero_copy_initialized := [] }
    setupDmaBufs s4 env

/-- One dequeued output frame inside the drain loop of
`V4L2DecoderImpl::decodeData`: the buffer fields, the slot's CPU-visible
content and the display responses for presenting it. -/
structure DrainFrame where
  out_buf : V4l2OutBuf
  content : List Nat
  env : PresentEnv
  deriving DecidableEq, Repr

/-- Outcome of one iteration of the output-drain loop of
`V4L2DecoderImpl::decodeData`: the poll result and, when readable, the
dequeue result.  `handleV4L2Events` is a pure logging routine (the
source-change reset is disabled in the source), so an event flag changes
no state. -/
inductive DrainOutcome where
  | poll_not_ready
  | poll_error
  | event_only
  | would_block
  | frame (f : DrainFrame)
  deriving DecidableEq, Repr

/-- The output-drain loop of `V4L2DecoderImpl::decodeData` (the
`do … while (frames_processed)` at the end): poll with timeout 0; a failed
poll, a poll with no readable data, or a would-block dequeue ends the loop
successfully; a poll error sets `needs_reset` and fails the call; a
dequeued frame is handed to the presenter and its slot re-queued with its
original `fd` and length (a device-side effect), and the loop continues. -/
def drainLoop (s : PipelineState) : List DrainOutcome → Bool × PipelineState
  | [] => (true, s)
  | step :: rest =>
    match step with
    | .poll_not_ready => (true, s)
    | .poll_error => (false, { s with needs_reset := true })
    | .event_only => (true, s)
    | .would_block => (true, s)
    | .frame f => drainLoop (processDecodedFrame s f.env f.out_buf f.content).2 rest

/-- Device responses consumed by one `V4L2DecoderImpl::decodeData` call:
the reset and streaming environments, the indices of completed input
buffers drained up front, the writability poll and the extra completion
used when the pool is exhausted, the input `VIDIOC_QBUF` outcome and the
output-drain iterations. -/
structure DecodeEnv where
  reset_env : ResetEnv
  stream_env : StreamEnv
  input_completions : List Nat
  poll_write_ready : Bool
  extra_completion : Option Nat
  queue_input_ok : Bool
  drain_steps : List DrainOutcome
  deriving DecidableEq, Repr

/-- Result of one `decodeData` call: the returned boolean, the final
pipeline state, whether any access-unit bytes were copied into an input
slot (`memcpy` reached), and whether the input buffer was enqueued
(`VIDIOC_QBUF` succeeded and the slot was marked in use). -/
structure DecodeResult where
  ok : Bool
  state : PipelineState
  copied : Bool
  enqueued : Bool
  deriving DecidableEq, Repr

/-- The streaming (re)start at the top of the decode step
(`if (!streaming_manager_->is_active()) … start()`): no-op when already
active, otherwise delegate to the streaming controller. -/
def decodeStartStreaming (s : PipelineState) (env : DecodeEnv) :
    Bool × PipelineState :=
  if s.streaming = StreamState.active then (true, s)
  else
    let r := StreamingManager.start s.streaming env.stream_env
    (r.1, { s with streaming := r.2 })

/-- Input-slot selection of `decodeData`: drain completed input buffers
(marking their slots free), peek a free slot; when none is free, poll the
device for writability once with a 20 ms timeout and, if a completion can
be dequeued, free that slot and use it; otherwise report -1. -/
def decodeSelectSlot (s : PipelineState) (env : DecodeEnv) :
    Int × PipelineState :=
  let s3 := { s with
    input_pool := env.input_completions.foldl DmaBuffersManager.mark_free s.input_pool }
  let idx0 : Int := (DmaBuffersManager.get_free_buffer_index s3.input_pool).1
  if idx0 = -1 then
    if env.poll_write_ready then
      match env.extra_completion with
      | some j =>
        ((j : Int), { s3 with input_pool := DmaBuffersManager.mark_free s3.input_pool j })
      | none => (-1, s3)
    else (-1, s3)
  else (idx0, s3)

/-- `V4L2DecoderImpl::decodeData` after the reset gate (v4l2_decoder.cpp,
from the `decoder_ready` update onward): start streaming if idle; select
an input slot (`decodeSelectSlot`); bounds-check the slot and its mapping;
compute the chunk `min(size, slot.size)` (failing on an empty chunk before
copying); copy, enqueue the slot and mark it in use; then drain output
completions. -/
def decodeCore (s0 : PipelineState) (data_size : Nat) (env : DecodeEnv) :
    DecodeResult :=
  let startRes := decodeStartStreaming { s0 with decoder_ready := true } env
  if startRes.1 = false then ⟨false, startRes.2, false, false⟩
  else
    let pick := decodeSelectSlot startRes.2 env
    if pick.1 = -1 then ⟨false, pick.2, false, false⟩
    else
      let s4 := pick.2
      let bi : Nat := pick.1.toNat
      if s4.input_pool.count ≤ bi then ⟨false, s4, false, false⟩
      else if (s4.input_pool.buffers.getD bi DmaBufInfo.zeroInit).mapped_addr
          = none then ⟨false, s4, false, false⟩
      else
        let chunk := min data_size (s4.input_pool.buffers.getD bi DmaBufInfo.zeroInit).size
        if chunk = 0 then ⟨false, s4, false, false⟩
        else if env.queue_input_ok = false then ⟨false, s4, true, false⟩
        else
          let s5 := { s4 with input_pool := DmaBuffersManager.mark_in_use s4.input_pool bi }
          if s5.decoder_ready = false then ⟨true, s5, true, true⟩
          else
            let d := drainLoop s5 env.drain_steps
            ⟨d.1, d.2, true, true⟩

/-- `V4L2DecoderImpl::decodeData` (v4l2_decoder.cpp): reject empty input
and a closed device; while `needs_reset` is set, run the full buffer reset
and restart streaming, failing the call if either fails, and clear the
flag only after both succeed; then proceed with the normal decode step. -/
def decodeData (s : PipelineState) (data_size : Nat) (env : DecodeEnv) :
    DecodeResult :=
  if data_size = 0 then ⟨false, s, false, false⟩
  else if s.device_open = false then ⟨false, s, false, false⟩
  else if s.needs_reset = true then
    match resetBuffers s env.reset_env with
    | (false, s') => ⟨false, s', false, false⟩
    | (true, s') =>
      let r := StreamingManager.start s'.streaming env.stream_env
      if r.1 = false then ⟨false, { s' with streaming := r.2 }, false, false⟩
      else decodeCore { s' with streaming := r.2, needs_reset := false } data_size env
  else decodeCore s data_size env

/-- A concrete pipeline state for exercising `resetBuffers` and the reset
gate of `decodeData`: device open, streaming active, two input slots
(fds 3, 4) and two output slots (fds 5, 6), output slot 0 already
presented once (zero-copy-marked, its fd 5 cached in the display
controller), and `needs_reset` set. -/
def resetSampleState : PipelineState :=
  { device_open := true, streaming := .active,
    input_pool :=
      { count := 2,
        buffers := [⟨3, some 1, 100, 0⟩, ⟨4, some 2, 100, 0⟩],
        in_use := [true, false], current_buffer := 1 },
    output_pool :=
      { count := 2,
        buffers := [⟨5, some 3, 200, 0⟩, ⟨6, some 4, 200, 0⟩],
        in_use := [false, false], current_buffer := 0 },
    zero_copy_initialized := [true, false],
    display_cache := [5],
    display_present := true, display_type_drm := true,
    frame_width := 64, frame_height := 64,
    config_width := 64, config_height := 64,
    default_input_buffer_size := 2097152,
    decoded_frame_count := 3, decoder_ready := true, needs_reset := true }

/-- A fully successful environment for one `resetBuffers` run: both format
queries answer, the allocator mints fresh descriptors 10–13, all mappings
and both device realizations succeed. -/
def resetSampleEnv : ResetEnv :=
  { formats_ok := true, input_sizeimage := 100, output_sizeimage := 200,
    new_input_fds := [10, 11], input_map_ok := true,
    new_output_fds := [12, 13], output_map_ok := true,
    request_input_ok := true, request_output_ok := true }

/-- A `decodeData` environment whose reset fails at the first format
query (everything later would succeed). -/
def decodeSampleEnv : DecodeEnv :=
  { reset_env :=
      { formats_ok := false, input_sizeimage := 0,
        output_sizeimage := 0, new_input_fds := [], input_map_ok := true,
        new_output_fds := [], output_map_ok := true,
        request_input_ok := true, request_output_ok := true },
    stream_env := ⟨true, true, true⟩, input_completions := [],
    poll_write_ready := false, extra_completion := none,
    queue_input_ok := true, drain_steps := [] }

-- ===================================================================
-- THEOREMS
-- ===================================================================

/-- C7 (counterexample): the claim that `release` (`deallocate`) is
idempotent fails on the record `{fd := 5}`: `deallocate` takes a `const`
reference and never invalidates the stored descriptor, so a second
application closes descriptor 5 again — the two-application run issues
`[close 5, close 5]` while a single application issues `[close 5]`. -/
theorem c7_counterexample :
    DmaBufAllocator.twice DmaBufAllocator.deallocate ⟨5, none, 4096, 0⟩ ≠
      DmaBufAllocator.deallocate ⟨5, none, 4096, 0⟩ := by decide

/-- C7 (amended): `unmap` is idempotent — applying it twice equals applying
it once, both on the record and on the issued system calls.  `deallocate`
is not: it leaves the record unchanged (const reference), so a second
application is a no-op only when the record's descriptor is already
invalid (`fd < 0`); on a record with a valid descriptor it closes the
descriptor again. -/
theorem c7_release_unmap_idempotence (b : DmaBufInfo) :
    DmaBufAllocator.twice DmaBufAllocator.unmap b = DmaBufAllocator.unmap b ∧
    (DmaBufAllocator.deallocate b).1 = b ∧
    (b.fd < 0 →
      DmaBufAllocator.twice DmaBufAllocator.deallocate b =
        DmaBufAllocator.deallocate b) := by
  refine ⟨?_, ?_, ?_⟩
  · cases h : b.mapped_addr <;>
      simp [DmaBufAllocator.twice, DmaBufAllocator.unmap, h]
  · by_cases h : 0 ≤ b.fd <;> simp [DmaBufAllocator.deallocate, h]
  · intro h
    have h' : ¬ (0 ≤ b.fd) := by omega
    simp [DmaBufAllocator.twice, DmaBufAllocator.deallocate, h']

/-- C7 (witness): the amended theorem applied to the already-released record
`{fd := -1, mapped_addr := some 7}`. -/
theorem c7_release_unmap_idempotence_witness :
    DmaBufAllocator.twice DmaBufAllocator.deallocate ⟨-1, some 7, 16, 0⟩ =
      DmaBufAllocator.deallocate ⟨-1, some 7, 16, 0⟩ :=
  (c7_release_unmap_idempotence ⟨-1, some 7, 16, 0⟩).2.2 (by decide)

/-- C8 (counterexample): the claim says every size in the range
(0, 4 GiB] passes validation and reaches the kernel heap; the code's guard
is `size > UINT32_MAX`, so the boundary value 4 GiB = 2^32 = 4294967296 is
rejected without issuing the allocation request, returning the
value-initialised record with `fd = -1` (the `AllocFailed` outcome). -/
theorem c8_counterexample :
    (DmaBufAllocator.allocate true 4294967296 ⟨some 7, some 4294967296⟩).2
        = false ∧
    (DmaBufAllocator.allocate true 4294967296 ⟨some 7, some 4294967296⟩).1.fd
        = -1 := by decide

/-- C8 (amended): with the allocator initialised, `allocate` issues the
kernel heap allocation request exactly for sizes in (0, 2^32 − 1] — that
is, strictly below 4 GiB — and for size 0 or size > 2^32 − 1 it returns the
value-initialised record (`fd = -1`, the `AllocFailed` outcome) without
issuing the request. -/
theorem c8_allocate_size_validation (size : Nat) (env : DmaBufAllocator.AllocEnv) :
    ((DmaBufAllocator.allocate true size env).2 = true ↔
      0 < size ∧ size ≤ UINT32_MAX) ∧
    ((size = 0 ∨ UINT32_MAX < size) →
      (DmaBufAllocator.allocate true size env).1.fd = -1) := by
  have hsup : ¬ (true = false) := by decide
  constructor
  · by_cases h : size = 0 ∨ UINT32_MAX < size
    · unfold DmaBufAllocator.allocate
      rw [if_neg hsup, if_pos h]
      constructor
      · intro hc
        exact absurd hc (by decide)
      · intro hc
        omega
    · unfold DmaBufAllocator.allocate
      rw [if_neg hsup, if_neg h]
      cases env.ioctl_fd <;> simp <;> omega
  · intro h
    unfold DmaBufAllocator.allocate
    rw [if_neg hsup, if_pos h]
    rfl

/-- C8 (witness): the amended theorem applied at size 0 with a responsive
kernel environment. -/
theorem c8_allocate_size_validation_witness :
    (DmaBufAllocator.allocate true 0 ⟨some 7, none⟩).1.fd = -1 :=
  (c8_allocate_size_validation 0 ⟨some 7, none⟩).2 (by decide)

/-- Characterisation of the `get_free_buffer_index` loop: starting at
offset `i` with `r` iterations left, the loop returns -1 exactly when
every probed slot is in use, and otherwise returns the slot reached at the
least free offset, leaving every earlier probed slot in use. -/
theorem get_free_loop_spec (u : List Bool) (c cur : Nat) :
    ∀ r i,
      (DmaBuffersManager.get_free_loop u c cur i r = -1 ↔
        ∀ j, i ≤ j → j < i + r → u.getD ((cur + j) % c) false = true) ∧
      (DmaBuffersManager.get_free_loop u c cur i r ≠ -1 →
        ∃ j, i ≤ j ∧ j < i + r ∧
          DmaBuffersManager.get_free_loop u c cur i r =
            (((cur + j) % c : Nat) : Int) ∧
          u.getD ((cur + j) % c) false = false ∧
          ∀ k, i ≤ k → k < j → u.getD ((cur + k) % c) false = true) := by
  intro r
  induction r with
  | zero =>
    intro i
    constructor
    · constructor
      · intro _ j h1 h2
        omega
      · intro _
        rfl
    · intro h
      exact absurd rfl h
  | succ r ih =>
    intro i
    by_cases hB : u.getD ((cur + i) % c) false = false
    · constructor
      · rw [DmaBuffersManager.get_free_loop, if_pos hB]
        constructor
        · intro h
          exact absurd h (by omega)
        · intro h
          have := h i (le_refl i) (by omega)
          rw [this] at hB
          exact absurd hB (by decide)
      · intro _
        refine ⟨i, le_refl i, by omega, ?_, hB, ?_⟩
        · rw [DmaBuffersManager.get_free_loop, if_pos hB]
        · intro k h1 h2
          omega
    · have hBtrue : u.getD ((cur + i) % c) false = true := by
        cases hv : u.getD ((cur + i) % c) false
        · exact absurd hv hB
        · rfl
      have hstep : DmaBuffersManager.get_free_loop u c cur i (r + 1) =
          DmaBuffersManager.get_free_loop u c cur (i + 1) r := by
        rw [DmaBuffersManager.get_free_loop, if_neg hB]
      obtain ⟨ih1, ih2⟩ := ih (i + 1)
      constructor
      · rw [hstep, ih1]
        constructor
        · intro h j h1 h2
          rcases Nat.eq_or_lt_of_le h1 with heq | hlt
          · rw [← heq]
            exact hBtrue
          · exact h j hlt (by omega)
        · intro h j h1 h2
          exact h j (by omega) (by omega)
      · rw [hstep]
        intro h
        obtain ⟨j, hj1, hj2, hj3, hj4, hj5⟩ := ih2 h
        refine ⟨j, by omega, by omega, hj3, hj4, ?_⟩
        intro k h1 h2
        rcases Nat.eq_or_lt_of_le h1 with heq | hlt
        · rw [← heq]
          exact hBtrue
        · exact hj5 k hlt h2

/-- C6: `get_free_buffer_index` is a pure peek (the pool state it returns
is the input state), it returns -1 exactly when every slot probed at the
offsets `(current_buffer + i) % count`, `i < count`, is in use, and
otherwise it returns the slot at the least such free offset; the cursor
moves only inside `mark_in_use`, exactly when the marked index equals the
current cursor position, and then advances to `(index + 1) % count`;
`mark_free` never moves the cursor. -/
theorem c6_free_slot_selection (s : PoolState) (index : Nat)
    (hcur : s.current_buffer < s.count) :
    (DmaBuffersManager.get_free_buffer_index s).2 = s ∧
    ((DmaBuffersManager.get_free_buffer_index s).1 = -1 ↔
      ∀ i < s.count,
        s.in_use.getD ((s.current_buffer + i) % s.count) false = true) ∧
    ((DmaBuffersManager.get_free_buffer_index s).1 ≠ -1 →
      ∃ i, i < s.count ∧
        (DmaBuffersManager.get_free_buffer_index s).1 =
          (((s.current_buffer + i) % s.count : Nat) : Int) ∧
        s.in_use.getD ((s.current_buffer + i) % s.count) false = false ∧
        ∀ j, j < i →
          s.in_use.getD ((s.current_buffer + j) % s.count) false = true) ∧
    ((DmaBuffersManager.mark_in_use s index).current_buffer ≠ s.current_buffer →
      index = s.current_buffer ∧ index < s.count ∧
      (DmaBuffersManager.mark_in_use s index).current_buffer =
        (index + 1) % s.count) ∧
    (index < s.count → index = s.current_buffer →
      (DmaBuffersManager.mark_in_use s index).current_buffer =
        (index + 1) % s.count) ∧
    (DmaBuffersManager.mark_free s index).current_buffer = s.current_buffer := by
  have hmod : s.current_buffer % s.count = s.current_buffer :=
    Nat.mod_eq_of_lt hcur
  obtain ⟨h1, h2⟩ := get_free_loop_spec s.in_use s.count s.current_buffer s.count 0
  refine ⟨rfl, ?_, ?_, ?_, ?_, ?_⟩
  · rw [DmaBuffersManager.get_free_buffer_index]
    rw [h1]
    constructor
    · intro h i hi
      exact h i (by omega) (by omega)
    · intro h j _ hj
      exact h j (by omega)
  · intro h
    obtain ⟨j, _, hj2, hj3, hj4, hj5⟩ := h2 h
    refine ⟨j, by omega, hj3, hj4, ?_⟩
    intro k hk
    exact hj5 k (by omega) hk
  · intro h
    rw [DmaBuffersManager.mark_in_use] at h ⊢
    by_cases hlt : index < s.count
    · rw [if_pos hlt] at h ⊢
      by_cases heq : index = s.current_buffer % s.count
      · rw [if_pos heq] at h ⊢
        rw [hmod] at heq
        exact ⟨heq, hlt, rfl⟩
      · rw [if_neg heq] at h
        exact absurd rfl h
    · rw [if_neg hlt] at h
      exact absurd rfl h
  · intro hlt heq
    rw [DmaBuffersManager.mark_in_use, if_pos hlt,
      if_pos (by rw [hmod]; exact heq)]
  · rw [DmaBuffersManager.mark_free]
    by_cases hlt : index < s.count
    · rw [if_pos hlt]
    · rw [if_neg hlt]

/-- C6 (witness): the theorem applied to the pool
`{count := 4, in_use := [true, true, false, true], current_buffer := 1}`
and index 1: marking slot 1 (the cursor position) advances the cursor
to 2. -/
theorem c6_free_slot_selection_witness :
    (DmaBuffersManager.mark_in_use ⟨4, [], [true, true, false, true], 1⟩ 1).current_buffer
      = 2 :=
  (c6_free_slot_selection ⟨4, [], [true, true, false, true], 1⟩ 1
    (by decide)).2.2.2.2.1 (by decide) (by decide)

/-- Characterisation of the content-liveness loop: with enough fuel to
reach the bound, the loop reports "no content" exactly when, at every
visited offset `i + 64·k` below the bound, both the byte there and its
successor equal 16. -/
theorem has_content_loop_spec (buf : List Nat) (bound : Nat) :
    ∀ fuel i, bound ≤ i + 64 * fuel →
      (has_content_loop buf bound i fuel = false ↔
        ∀ k, i + 64 * k < bound →
          buf.getD (i + 64 * k) 0 = 16 ∧ buf.getD (i + 64 * k + 1) 0 = 16) := by
  intro fuel
  induction fuel with
  | zero =>
    intro i hb
    rw [has_content_loop]
    constructor
    · intro _ k hk
      omega
    · intro _
      rfl
  | succ fuel ih =>
    intro i hb
    by_cases hi : i < bound
    · by_cases hc : buf.getD i 0 ≠ 16 ∨ buf.getD (i + 1) 0 ≠ 16
      · rw [has_content_loop, if_pos hi, if_pos hc]
        constructor
        · intro h
          exact absurd h (by decide)
        · intro h
          have h0 := h 0 (by omega)
          simp only [Nat.mul_zero, Nat.add_zero] at h0
          rcases hc with hc | hc
          · exact absurd h0.1 hc
          · exact absurd h0.2 hc
      · push_neg at hc
        rw [has_content_loop, if_pos hi, if_neg (by push_neg; exact hc)]
        rw [ih (i + 64) (by omega)]
        constructor
        · intro h k hk
          cases k with
          | zero =>
            simpa using hc
          | succ k =>
            have := h k (by omega)
            constructor
            · have heq : i + 64 + 64 * k = i + 64 * (k + 1) := by ring
              rw [heq] at this
              exact this.1
            · have heq : i + 64 + 64 * k + 1 = i + 64 * (k + 1) + 1 := by ring
              rw [heq] at this
              exact this.2
        · intro h k hk
          have := h (k + 1) (by omega)
          constructor
          · have heq : i + 64 * (k + 1) = i + 64 + 64 * k := by ring
            rw [heq] at this
            exact this.1
          · have heq : i + 64 * (k + 1) + 1 = i + 64 + 64 * k + 1 := by ring
            rw [heq] at this
            exact this.2
    · rw [has_content_loop, if_neg hi]
      constructor
      · intro _ k hk
        omega
      · intro _
        rfl

/-- C4 (counterexample): the claim ties rejection exactly to the stride-64
samples, but the code also inspects the *successor* of every stride-64
position.  The buffer `16 :: 100 :: (1022 × 16)` has every stride-64
sample (positions 0, 64, …, 960) equal to the luma sentinel 16 — so by
the claim the heuristic must reject it — yet `has_content` accepts it,
because byte 1 (a successor position, not a stride-64 sample) differs
from 16. -/
theorem c4_counterexample :
    spec_all_sentinel (16 :: 100 :: List.replicate 1022 16) ∧
    has_content (16 :: 100 :: List.replicate 1022 16) 1024 = true := by
  constructor
  · decide
  · rfl

/-- C4 (amended): the heuristic rejects a buffer exactly when, at every
stride-64 position `64·k` below `min 1024 bytesused`, both the byte there
and the byte immediately after it equal 16 (the luma pre-paint sentinel);
the chroma sentinel 128 is never consulted, and one differing byte at a
sampled position or its successor makes the heuristic accept. -/
theorem c4_liveness_scan (buf : List Nat) (bytesused : Nat) :
    has_content buf bytesused = false ↔
      ∀ k < 16, 64 * k < min 1024 bytesused →
        buf.getD (64 * k) 0 = 16 ∧ buf.getD (64 * k + 1) 0 = 16 := by
  rw [has_content, has_content_loop_spec buf (min 1024 bytesused) 17 0 (by omega)]
  constructor
  · intro h k _ hk
    have := h k (by omega)
    simpa using this
  · intro h k hk
    have hk16 : k < 16 := by omega
    have := h k hk16 (by omega)
    simpa using this

/-- C4 (witness): a buffer pre-painted entirely with the luma sentinel is
rejected by the amended characterisation. -/
theorem c4_liveness_scan_witness :
    has_content (List.replicate 1024 16) 1024 = false :=
  (c4_liveness_scan (List.replicate 1024 16) 1024).mpr (by decide)

/-- The zero-copy setup callback never changes the decoded-frame counter
or the reset flag: it touches only the framebuffer cache and the
zero-copy bookkeeping. -/
theorem zeroCopySetupCallback_preserves (s : PipelineState) (env : PresentEnv)
    (i : Nat) :
    (zeroCopySetupCallback s env i).decoded_frame_count = s.decoded_frame_count ∧
    (zeroCopySetupCallback s env i).needs_reset = s.needs_reset := by
  unfold zeroCopySetupCallback
  dsimp only
  split
  · exact ⟨rfl, rfl⟩
  · split
    · split
      · exact ⟨rfl, rfl⟩
      · exact ⟨rfl, rfl⟩
    · exact ⟨rfl, rfl⟩

/-- The presenter's display step never changes the decoded-frame counter
or the reset flag. -/
theorem displayFrame_preserves (s : PipelineState) (env : PresentEnv)
    (b : V4l2OutBuf) (content : List Nat) :
    (displayFrame s env b content).2.decoded_frame_count = s.decoded_frame_count ∧
    (displayFrame s env b content).2.needs_reset = s.needs_reset := by
  unfold displayFrame
  dsimp only
  split
  · exact ⟨rfl, rfl⟩
  · split
    · exact ⟨rfl, rfl⟩
    · by_cases hd : s.display_type_drm = true
      · rw [if_pos hd]
        exact zeroCopySetupCallback_preserves s env b.index
      · rw [if_neg hd]
        exact ⟨rfl, rfl⟩

/-- `processDecodedFrame` always reports success (so the slot is always
re-queued) and never changes the reset flag. -/
theorem processDecodedFrame_preserves (s : PipelineState) (env : PresentEnv)
    (b : V4l2OutBuf) (content : List Nat) :
    (processDecodedFrame s env b content).1 = true ∧
    (processDecodedFrame s env b content).2.needs_reset = s.needs_reset := by
  unfold processDecodedFrame
  dsimp only
  split
  · exact ⟨rfl, rfl⟩
  · split
    · exact ⟨rfl, (displayFrame_preserves _ env b content).2⟩
    · exact ⟨rfl, rfl⟩

/-- C5 (counterexample): a dequeued buffer with an out-of-range index
fails validation, and the presenter returns without incrementing the
decoded-frame counter — contradicting the claim that the counter is
incremented on entry regardless of whether validation succeeds. -/
theorem c5_counterexample :
    validateOutputBuffer
      (⟨true, .active, ⟨6, [], [], 0⟩, ⟨4, [], [], 0⟩,
        [false, false, false, false], [], true, true, 64, 64, 64, 64,
        2097152, 0, true, false⟩ : PipelineState).output_pool
      ⟨7, false, 6144⟩ = false ∧
    (processDecodedFrame
      ⟨true, .active, ⟨6, [], [], 0⟩, ⟨4, [], [], 0⟩,
        [false, false, false, false], [], true, true, 64, 64, 64, 64,
        2097152, 0, true, false⟩
      ⟨some 1, true, true⟩ ⟨7, false, 6144⟩ []).2.decoded_frame_count = 0 := by
  decide

/-- C5 (amended): the presenter increments the decoded-frame counter
exactly when validation succeeds — after the index/descriptor/error-flag
checks but before (and regardless of) the size check, the content-liveness
check and the display call — and it always returns `true` so the slot is
re-queued.  The counter therefore counts validated dequeues, not
successful presentations. -/
theorem c5_frame_counter (s : PipelineState) (env : PresentEnv)
    (b : V4l2OutBuf) (content : List Nat) :
    (processDecodedFrame s env b content).1 = true ∧
    (processDecodedFrame s env b content).2.decoded_frame_count =
      (if validateOutputBuffer s.output_pool b = true then
        s.decoded_frame_count + 1 else s.decoded_frame_count) := by
  cases hv : validateOutputBuffer s.output_pool b
  · unfold processDecodedFrame
    rw [hv, if_pos rfl, if_neg (by decide)]
    exact ⟨rfl, rfl⟩
  · unfold processDecodedFrame
    rw [hv, if_neg (by decide), if_pos rfl]
    dsimp only
    refine ⟨?_, ?_⟩
    · split
      · rfl
      · rfl
    · split
      · exact (displayFrame_preserves _ env b content).1
      · rfl

/-- C9 (counterexample): enqueuing 7 frames into the paused capacity-5
queue leaves exactly the last 5 in FIFO order, but the `frames_dropped`
statistic stays 0 — not 2 as the claim states — because no counter is
incremented on queue overflow. -/
theorem c9_counterexample :
    (List.foldl onFrameReceivedEnqueue ⟨[], 0⟩ [1, 2, 3, 4, 5, 6, 7]).frame_queue
      = [3, 4, 5, 6, 7] ∧
    (List.foldl onFrameReceivedEnqueue ⟨[], 0⟩ [1, 2, 3, 4, 5, 6, 7]).frames_dropped
      ≠ 2 := by decide

/-- C9 (amended): with the consumer paused, enqueuing 7 access units into
the capacity-5 queue leaves exactly the last 5 in FIFO arrival order (each
overflow drops the oldest queued frame, so the first two are lost), and no
statistic records these drops: `frames_dropped` remains 0 — it counts only
exceptions inside the receiver's frame processing, never queue overflow. -/
theorem c9_queue_drop_policy :
    (List.foldl onFrameReceivedEnqueue ⟨[], 0⟩ [1, 2, 3, 4, 5, 6, 7]).frame_queue
      = [3, 4, 5, 6, 7] ∧
    (List.foldl onFrameReceivedEnqueue ⟨[], 0⟩ [1, 2, 3, 4, 5, 6, 7]).frames_dropped
      = 0 ∧
    ∀ s f, MAX_QUEUE_SIZE ≤ s.frame_queue.length →
      (onFrameReceivedEnqueue s f).frame_queue = s.frame_queue.tail ++ [f] ∧
      (onFrameReceivedEnqueue s f).frames_dropped = s.frames_dropped := by
  refine ⟨by decide, by decide, ?_⟩
  intro s f h
  unfold onFrameReceivedEnqueue
  rw [if_pos h]
  exact ⟨rfl, rfl⟩

/-- C9 (witness): the oldest-drop law applied to a full concrete queue. -/
theorem c9_queue_drop_policy_witness :
    (onFrameReceivedEnqueue ⟨[1, 2, 3, 4, 5], 0⟩ 6).frame_queue = [2, 3, 4, 5, 6] ∧
    (onFrameReceivedEnqueue ⟨[1, 2, 3, 4, 5], 0⟩ 6).frames_dropped = 0 :=
  c9_queue_drop_policy.2.2 ⟨[1, 2, 3, 4, 5], 0⟩ 6 (by decide)

/-- C10: under the dimension guard (which rejects width or height 0 or
above 8192) the 32-bit plane-area overflow branch of
`setupZeroCopyBuffer` is unreachable: no input produces the overflow
rejection, every accepted pair satisfies `w·h ≤ 8192·8192 = 2^26`, and
every input whose plane area would exceed `UINT32_MAX` is already rejected
by the descriptor or dimension check. -/
theorem c10_overflow_unreachable (cache : List Int) (env : PresentEnv)
    (dma_fd : Int) (w h : Nat) :
    (setupZeroCopyBuffer cache env dma_fd w h).1 ≠ SetupResult.overflow_rejected ∧
    (¬(w = 0 ∨ h = 0 ∨ 8192 < w ∨ 8192 < h) → w * h ≤ 67108864) ∧
    (UINT32_MAX < w * h →
      (setupZeroCopyBuffer cache env dma_fd w h).1 = SetupResult.invalid_fd ∨
      (setupZeroCopyBuffer cache env dma_fd w h).1 = SetupResult.invalid_size) := by
  have harea : ¬(w = 0 ∨ h = 0 ∨ 8192 < w ∨ 8192 < h) → w * h ≤ 67108864 := by
    intro hw
    push_neg at hw
    calc w * h ≤ 8192 * 8192 := Nat.mul_le_mul hw.2.2.1 hw.2.2.2
      _ = 67108864 := by norm_num
  refine ⟨?_, harea, ?_⟩
  · unfold setupZeroCopyBuffer
    by_cases h1 : dma_fd < 0
    · rw [if_pos h1]
      exact fun hc => nomatch hc
    · rw [if_neg h1]
      by_cases h2 : w = 0 ∨ h = 0 ∨ 8192 < w ∨ 8192 < h
      · rw [if_pos h2]
        exact fun hc => nomatch hc
      · rw [if_neg h2]
        by_cases h3 : dma_fd ∈ cache
        · rw [if_pos h3]
          exact fun hc => nomatch hc
        · rw [if_neg h3]
          cases henv : env.prime_handle with
          | none => exact fun hc => nomatch hc
          | some hdl =>
            have hsmall : ¬ (UINT32_MAX < w * h) := by
              have := harea h2
              unfold UINT32_MAX
              omega
            rw [if_neg hsmall]
            by_cases h4 : env.add_fb_ok = true
            · rw [if_pos h4]
              exact fun hc => nomatch hc
            · rw [if_neg h4]
              exact fun hc => nomatch hc
  · intro hbig
    by_cases h1 : dma_fd < 0
    · left
      unfold setupZeroCopyBuffer
      rw [if_pos h1]
    · right
      have hsz : w = 0 ∨ h = 0 ∨ 8192 < w ∨ 8192 < h := by
        by_contra hc
        have := harea hc
        unfold UINT32_MAX at hbig
        omega
      unfold setupZeroCopyBuffer
      rw [if_neg h1, if_pos hsz]

/-- C10 (witness): the theorem at the guard boundary 8192×8192 and at an
overflowing 100000×100000 request. -/
theorem c10_overflow_unreachable_witness :
    8192 * 8192 ≤ 67108864 ∧
    ((setupZeroCopyBuffer [] ⟨some 1, true, true⟩ 0 100000 100000).1
        = SetupResult.invalid_fd ∨
      (setupZeroCopyBuffer [] ⟨some 1, true, true⟩ 0 100000 100000).1
        = SetupResult.invalid_size) :=
  ⟨(c10_overflow_unreachable [] ⟨some 1, true, true⟩ 0 8192 8192).2.1 (by decide),
   (c10_overflow_unreachable [] ⟨some 1, true, true⟩ 0 100000 100000).2.2 (by decide)⟩

/-- C2 (code_bug evidence): at a display state holding the device
descriptor 3, the allocator heap descriptor 2 and one cached framebuffer
`{dma_fd = 5, fb_id = 10, handle = 7}`, the teardown that actually runs
when the pipeline drops the controller (`drmDrop`, the `= default`
destructor) closes only the heap descriptor: the device descriptor stays
open, the framebuffer is never removed and the imported handle is never
closed — while the never-invoked `cleanup()` (`drmCleanup`) would release
everything in reverse order with the device descriptor last, exactly as
the claim describes. -/
theorem c2_display_teardown_leak :
    drmDrop ⟨3, 2, [⟨5, 10, 7⟩], true, true, true, true⟩ = [DrmEvent.close_fd 2] ∧
    DrmEvent.close_fd 3 ∉ drmDrop ⟨3, 2, [⟨5, 10, 7⟩], true, true, true, true⟩ ∧
    DrmEvent.rm_fb 10 ∉ drmDrop ⟨3, 2, [⟨5, 10, 7⟩], true, true, true, true⟩ ∧
    DrmEvent.close_handle 7 ∉ drmDrop ⟨3, 2, [⟨5, 10, 7⟩], true, true, true, true⟩ ∧
    (drmCleanup ⟨3, 2, [⟨5, 10, 7⟩], true, true, true, true⟩).2 =
      [DrmEvent.rm_fb 10, DrmEvent.close_handle 7, DrmEvent.free_crtc,
       DrmEvent.free_encoder, DrmEvent.free_connector, DrmEvent.free_resources,
       DrmEvent.close_fd 3] := by decide

/-- `setupDmaBufs` never touches the display controller's framebuffer
cache or the streaming state, and on success it leaves the
zero-copy-initialized vector freshly assigned: one `false` per output
slot. -/
theorem setupDmaBufs_spec (s : PipelineState) (env : ResetEnv) :
    (setupDmaBufs s env).2.display_cache = s.display_cache ∧
    (setupDmaBufs s env).2.streaming = s.streaming ∧
    ((setupDmaBufs s env).1 = true →
      (setupDmaBufs s env).2.zero_copy_initialized =
        List.replicate s.output_pool.count false) := by
  unfold setupDmaBufs
  dsimp only
  split
  · exact ⟨rfl, rfl, fun h => nomatch h⟩
  · split
    · exact ⟨rfl, rfl, fun h => nomatch h⟩
    · split
      · exact ⟨rfl, rfl, fun h => nomatch h⟩
      · split
        · exact ⟨rfl, rfl, fun h => nomatch h⟩
        · split
          · exact ⟨rfl, rfl, fun h => nomatch h⟩
          · exact ⟨rfl, rfl, fun _ => rfl⟩

/-- On a successful `resetBuffers` run the display controller's
framebuffer cache is exactly what it was before the reset, the
zero-copy-initialized vector holds one `false` per output slot, and the
streaming controller was forced to `STOPPED`. -/
theorem resetBuffers_success_spec (s : PipelineState) (env : ResetEnv)
    (h : (resetBuffers s env).1 = true) :
    (resetBuffers s env).2.display_cache = s.display_cache ∧
    (resetBuffers s env).2.zero_copy_initialized =
      List.replicate s.output_pool.count false ∧
    (resetBuffers s env).2.streaming = StreamState.stopped := by
  by_cases hd : s.device_open = false
  · rw [resetBuffers, if_pos hd] at h
    exact nomatch h
  · have hrw : resetBuffers s env =
        setupDmaBufs
          { s with streaming := StreamState.stopped,
                   input_pool := DmaBuffersManager.deallocate
                     (DmaBuffersManager.reset_usage s.input_pool),
                   output_pool := DmaBuffersManager.deallocate s.output_pool,
                   zero_copy_initialized := [] } env := by
      rw [resetBuffers, if_neg hd]
    rw [hrw] at h ⊢
    obtain ⟨hc, hst, hz⟩ := setupDmaBufs_spec _ env
    exact ⟨hc, hz h, hst⟩

/-- C1 (counterexample): at a state whose display controller caches a
framebuffer for output-slot descriptor 5, a fully successful
`resetBuffers` run deallocates that descriptor (it is one of the output
pool's fds, all of which are closed in step 5) yet the display
controller's framebuffer cache still holds the entry keyed by 5 —
contradicting the claim that after a successful reset no cache entry
references a deallocated descriptor. -/
theorem c1_counterexample :
    (resetBuffers resetSampleState resetSampleEnv).1 = true ∧
    (5 : Int) ∈ resetSampleState.output_pool.buffers.map (fun b => b.fd) ∧
    (5 : Int) ∈ (resetBuffers resetSampleState resetSampleEnv).2.display_cache := by
  decide

/-- C1 (amended): after every successful `reset_buffers` no slot is marked
zero-copy-initialized (the vector is reassigned to all-`false`), but the
display controller's framebuffer cache is left exactly as it was — the
reset never clears it, so entries keyed by the deallocated descriptors
persist until display teardown. -/
theorem c1_reset_cache_untouched (s : PipelineState) (env : ResetEnv)
    (h : (resetBuffers s env).1 = true) :
    (∀ b ∈ (resetBuffers s env).2.zero_copy_initialized, b = false) ∧
    (resetBuffers s env).2.display_cache = s.display_cache := by
  obtain ⟨hc, hz, _⟩ := resetBuffers_success_spec s env h
  refine ⟨?_, hc⟩
  intro b hb
  rw [hz] at hb
  exact List.eq_of_mem_replicate hb

/-- C1 (witness): the amended theorem evaluated on the concrete reset run
of the counterexample state. -/
theorem c1_reset_cache_untouched_witness :
    (resetBuffers resetSampleState resetSampleEnv).2.display_cache = [5] ∧
    (resetBuffers resetSampleState resetSampleEnv).2.zero_copy_initialized =
      [false, false] := by
  have h := c1_reset_cache_untouched resetSampleState resetSampleEnv (by decide)
  refine ⟨h.2, ?_⟩
  have hz := (resetBuffers_success_spec resetSampleState resetSampleEnv (by decide)).2.1
  exact hz

/-- The output-drain loop either completes successfully without touching
`needs_reset`, or it hit a poll error: then it reports failure with
`needs_reset` set. -/
theorem drainLoop_needs_reset (steps : List DrainOutcome) :
    ∀ s : PipelineState,
      ((drainLoop s steps).1 = true ∧
        (drainLoop s steps).2.needs_reset = s.needs_reset) ∨
      ((drainLoop s steps).1 = false ∧
        (drainLoop s steps).2.needs_reset = true) := by
  induction steps with
  | nil =>
    intro s
    exact Or.inl ⟨rfl, rfl⟩
  | cons step rest ih =>
    intro s
    cases step with
    | poll_not_ready => exact Or.inl ⟨rfl, rfl⟩
    | poll_error => exact Or.inr ⟨rfl, rfl⟩
    | event_only => exact Or.inl ⟨rfl, rfl⟩
    | would_block => exact Or.inl ⟨rfl, rfl⟩
    | frame f =>
      have hp := (processDecodedFrame_preserves s f.env f.out_buf f.content).2
      rcases ih (processDecodedFrame s f.env f.out_buf f.content).2 with
        ⟨h1, h2⟩ | ⟨h1, h2⟩
      · exact Or.inl ⟨h1, h2.trans hp⟩
      · exact Or.inr ⟨h1, h2⟩

/-- Control flow of the post-reset decode step: either it leaves
`needs_reset` exactly as it found it, or the input was enqueued, the
output drain hit a poll error, the call failed and `needs_reset` is set. -/
theorem decodeStartStreaming_needs_reset (s : PipelineState) (env : DecodeEnv) :
    (decodeStartStreaming s env).2.needs_reset = s.needs_reset := by
  unfold decodeStartStreaming
  dsimp only
  split
  · rfl
  · rfl

theorem decodeSelectSlot_needs_reset (s : PipelineState) (env : DecodeEnv) :
    (decodeSelectSlot s env).2.needs_reset = s.needs_reset := by
  unfold decodeSelectSlot
  dsimp only
  split
  · split
    · split
      · rfl
      · rfl
    · rfl
  · rfl

theorem decodeCore_cases (s : PipelineState) (n : Nat) (env : DecodeEnv) :
    (decodeCore s n env).state.needs_reset = s.needs_reset ∨
    ((decodeCore s n env).enqueued = true ∧ (decodeCore s n env).ok = false ∧
      (decodeCore s n env).state.needs_reset = true) := by
  unfold decodeCore
  dsimp only
  rcases hstart : decodeStartStreaming { s with decoder_ready := true } env with ⟨b1, t1⟩
  have ht1 : t1.needs_reset = s.needs_reset := by
    have h := decodeStartStreaming_needs_reset { s with decoder_ready := true } env
    rw [hstart] at h
    exact h
  dsimp only
  cases b1
  · rw [if_pos rfl]
    exact Or.inl ht1
  · rw [if_neg (by decide)]
    rcases hpick : decodeSelectSlot t1 env with ⟨i, t2⟩
    have ht2 : t2.needs_reset = s.needs_reset := by
      have h := decodeSelectSlot_needs_reset t1 env
      rw [hpick] at h
      exact h.trans ht1
    dsimp only
    by_cases hi : i = -1
    · rw [if_pos hi]
      exact Or.inl ht2
    · rw [if_neg hi]
      by_cases hc : t2.input_pool.count ≤ i.toNat
      · rw [if_pos hc]
        exact Or.inl ht2
      · rw [if_neg hc]
        by_cases hm : (t2.input_pool.buffers.getD i.toNat DmaBufInfo.zeroInit).mapped_addr = none
        · rw [if_pos hm]
          exact Or.inl ht2
        · rw [if_neg hm]
          by_cases hch : min n (t2.input_pool.buffers.getD i.toNat DmaBufInfo.zeroInit).size = 0
          · rw [if_pos hch]
            exact Or.inl ht2
          · rw [if_neg hch]
            by_cases hq : env.queue_input_ok = false
            · rw [if_pos hq]
              exact Or.inl ht2
            · rw [if_neg hq]
              by_cases hdr : ({ t2 with
                  input_pool := DmaBuffersManager.mark_in_use t2.input_pool i.toNat } : PipelineState).decoder_ready = false
              · rw [if_pos hdr]
                exact Or.inl ht2
              · rw [if_neg hdr]
                rcases drainLoop_needs_reset env.drain_steps
                  { t2 with input_pool := DmaBuffersManager.mark_in_use t2.input_pool i.toNat }
                  with ⟨h1, h2⟩ | ⟨h1, h2⟩
                · exact Or.inl (h2.trans ht2)
                · exact Or.inr ⟨rfl, h1, h2⟩

/-- A successful `StreamingManager::start` from a non-`ACTIVE` state ends
in `ACTIVE`. -/
theorem start_success_active (st : StreamState) (e : StreamEnv)
    (hne : ¬ st = StreamState.active)
    (h : (StreamingManager.start st e).1 = true) :
    (StreamingManager.start st e).2 = StreamState.active := by
  rw [StreamingManager.start, if_neg hne] at h ⊢
  by_cases h1 : e.queue_output_ok = false
  · rw [if_pos h1] at h
    exact nomatch h
  · rw [if_neg h1] at h ⊢
    by_cases h2 : e.stream_on_input_ok = false
    · rw [if_pos h2] at h
      exact nomatch h
    · rw [if_neg h2] at h ⊢
      by_cases h3 : e.stream_on_output_ok = false
      · rw [if_pos h3] at h
        exact nomatch h
      · rw [if_neg h3]

/-- C3: while `needs_reset` is set, `decodeData` accepts no input until a
full reset completes: a failed reset or a failed streaming restart makes
the call fail with no access-unit bytes copied and nothing enqueued, and
when both succeed the remainder of the call is exactly the normal decode
step started from the post-reset state — streaming restarted to `ACTIVE`,
the zero-copy set freshly cleared, and `needs_reset` already cleared
before any copy or enqueue.  Moreover the decode step itself changes
`needs_reset` only by setting it to `true` on a drain poll error, which
happens only after the call's own input enqueue succeeded. -/
theorem c3_reset_gate (s : PipelineState) (n : Nat) (env : DecodeEnv)
    (hr : s.needs_reset = true) (hn : ¬ n = 0) (ho : s.device_open = true) :
    ((resetBuffers s env.reset_env).1 = false →
      decodeData s n env =
        ⟨false, (resetBuffers s env.reset_env).2, false, false⟩) ∧
    ((resetBuffers s env.reset_env).1 = true →
      (StreamingManager.start (resetBuffers s env.reset_env).2.streaming
          env.stream_env).1 = false →
      decodeData s n env =
        ⟨false,
          { (resetBuffers s env.reset_env).2 with
              streaming := (StreamingManager.start
                (resetBuffers s env.reset_env).2.streaming env.stream_env).2 },
          false, false⟩) ∧
    ((resetBuffers s env.reset_env).1 = true →
      (StreamingManager.start (resetBuffers s env.reset_env).2.streaming
          env.stream_env).1 = true →
      decodeData s n env =
        decodeCore
          { (resetBuffers s env.reset_env).2 with
              streaming := StreamState.active, needs_reset := false } n env ∧
      (resetBuffers s env.reset_env).2.zero_copy_initialized =
        List.replicate s.output_pool.count false) ∧
    (∀ t : PipelineState, (decodeCore t n env).enqueued = false →
      (decodeCore t n env).state.needs_reset = t.needs_reset) ∧
    (∀ t : PipelineState,
      ¬ (decodeCore t n env).state.needs_reset = t.needs_reset →
      (decodeCore t n env).enqueued = true ∧
      (decodeCore t n env).state.needs_reset = true) := by
  have hopen : ¬ s.device_open = false := by
    rw [ho]
    decide
  refine ⟨?_, ?_, ?_, ?_, ?_⟩
  · intro hf
    rw [decodeData, if_neg hn, if_neg hopen, if_pos hr]
    rcases hres : resetBuffers s env.reset_env with ⟨b, s'⟩
    rw [hres] at hf
    cases b
    · rfl
    · exact nomatch hf
  · intro hb hst
    rw [decodeData, if_neg hn, if_neg hopen, if_pos hr]
    rcases hres : resetBuffers s env.reset_env with ⟨b, s'⟩
    rw [hres] at hb hst
    cases b
    · exact nomatch hb
    · dsimp only at hst ⊢
      rw [if_pos hst]
  · intro hb hst
    have hspec := resetBuffers_success_spec s env.reset_env hb
    constructor
    · rw [decodeData, if_neg hn, if_neg hopen, if_pos hr]
      rcases hres : resetBuffers s env.reset_env with ⟨b, s'⟩
      rw [hres] at hb hst hspec
      cases b
      · exact nomatch hb
      · dsimp only at hst hspec ⊢
        rw [if_neg (by rw [hst]; decide)]
        have hact := start_success_active s'.streaming env.stream_env
          (by rw [hspec.2.2]; decide) hst
        rw [hact]
    · exact hspec.2.1
  · intro t he
    rcases decodeCore_cases t n env with hcase | ⟨h1, _, _⟩
    · exact hcase
    · rw [he] at h1
      exact nomatch h1
  · intro t hne
    rcases decodeCore_cases t n env with hcase | ⟨h1, _, h3⟩
    · exact absurd hcase hne
    · exact ⟨h1, h3⟩

/-- C3 (witness): the gate evaluated on a concrete state with
`needs_reset` set and an environment whose reset fails at the format
query: the call fails and neither copies nor enqueues anything. -/
theorem c3_reset_gate_witness :
    decodeData resetSampleState 1 decodeSampleEnv =
      ⟨false, (resetBuffers resetSampleState decodeSampleEnv.reset_env).2,
        false, false⟩ := by
  have h := c3_reset_gate resetSampleState 1 decodeSampleEnv
    (by decide) (by decide) (by decide)
  exact h.1 (by decide)

end RtpDrm
